import Mathlib

/-!
Shallow embedding of `src/sample_lambda/lambda.py` — an Alexa Smart Home
Lambda that bridges v2 (appliance-centric) and v3 (endpoint/capability)
directives: version detection, appliance→endpoint projection, the
namespace/name dispatch and response-envelope synthesis.

Python dicts are modelled by a JSON value type; dict indexing `d[k]`,
which raises `KeyError` on a missing key, is modelled by an `Option`
lookup, with the raising call sites translated into explicit
`Except`-style error results.  Python floats are modelled as rationals.
The external collaborators (uuid generator, UTC clock, environment
sensor read) are modelled as explicit parameters.
-/

/-- A JSON value, as produced by parsing the Lambda's request/response
dictionaries. Objects keep their key/value pairs in insertion order. -/
inductive Json where
  | null : Json
  | bool : Bool → Json
  | num : Rat → Json
  | str : String → Json
  | arr : List Json → Json
  | obj : List (String × Json) → Json

/-- Python `d[k]` on a dict, as a total lookup: `none` models `KeyError`
(and indexing a non-dict, which also raises). -/
def Json.get : Json → String → Option Json
  | .obj fields, k => fields.lookup k
  | _, _ => none

/-- Chained dict indexing `d[k1][k2]…`; `none` as soon as a step fails. -/
def Json.getPath (j : Json) : List String → Option Json
  | [] => some j
  | k :: ks =>
    match j.get k with
    | some j' => j'.getPath ks
    | none => none

/-- Python `x == "s"` where `"s"` is a string literal: true exactly when
`x` is that string (comparison with a non-string is `False`, not an error). -/
def Json.isStr : Json → String → Bool
  | .str t, s => t == s
  | _, _ => false

theorem Json.isStr_true_iff (j : Json) (s : String) : j.isStr s = true ↔ j = .str s := by
  cases j <;> simp [Json.isStr]

theorem Json.isStr_false_of_ne {j : Json} {s : String} (h : j ≠ .str s) :
    j.isStr s = false := by
  cases j <;> simp_all [Json.isStr]

/-- Modelled from the spec: the Lambda imports `AcRemote` from
`ac_remote` (the file `sample_lambda/ac_remote.py` is not part of the
sources here).  §6 of the spec gives the DeviceControlFacade contract:
`setPowerOn()`, `setPowerOff()`, `getPower() → "ON"|"OFF"`,
`setTemperature(celsius: float)`, `getTemperature() → float`,
`setModeHeat()`, `setModeCool()`, `getMode() → "HEAT"|"COOL"`.
The facade is the one physical device's live state; floats are
modelled as rationals. -/
structure AcRemote where
  power : String
  mode : String
  temperature : Rat

def AcRemote.set_power_on (ac : AcRemote) : AcRemote := { ac with power := "ON" }

def AcRemote.set_power_off (ac : AcRemote) : AcRemote := { ac with power := "OFF" }

def AcRemote.get_power (ac : AcRemote) : String := ac.power

def AcRemote.set_temperature (ac : AcRemote) (t : Rat) : AcRemote :=
  { ac with temperature := t }

def AcRemote.get_temperature (ac : AcRemote) : Rat := ac.temperature

def AcRemote.set_mode_heat (ac : AcRemote) : AcRemote := { ac with mode := "HEAT" }

def AcRemote.set_mode_cool (ac : AcRemote) : AcRemote := { ac with mode := "COOL" }

def AcRemote.get_mode (ac : AcRemote) : String := ac.mode

/-- The handlers' other external effects, passed in explicitly:
`ts` models a `get_utc_timestamp()` reading, `msgId` a `get_uuid()`
result, and `envTemp` the `env_monitor.get_temperature()` sensor read
(`env_monitor.py` fetches it from a DynamoDB table). -/
structure ExtInputs where
  ts : String
  msgId : String
  envTemp : Rat

/-- One entry of the `SAMPLE_APPLIANCES` catalog, in v2 appliance
syntax (the dict keys used by the projection functions). -/
structure Appliance where
  applianceId : String
  manufacturerName : String
  modelName : String
  version : String
  friendlyName : String
  friendlyDescription : String
  isReachable : Bool
  actions : List String
  additionalApplianceDetails : Json

/-- An appliance rendered back to its JSON dict, as it appears in the
source's `SAMPLE_APPLIANCES` literal and in v2 discovery payloads. -/
def appliance_to_json (a : Appliance) : Json :=
  .obj [
    ("applianceId", .str a.applianceId),
    ("manufacturerName", .str a.manufacturerName),
    ("modelName", .str a.modelName),
    ("version", .str a.version),
    ("friendlyName", .str a.friendlyName),
    ("friendlyDescription", .str a.friendlyDescription),
    ("isReachable", .bool a.isReachable),
    ("actions", .arr (a.actions.map Json.str)),
    ("additionalApplianceDetails", a.additionalApplianceDetails)]

/-- The catalog: a single virtual appliance, `endpoint-004`. -/
def SAMPLE_APPLIANCES : List Appliance :=
  [{ applianceId := "endpoint-004",
     manufacturerName := "IR TEST (AC remote)",
     modelName := "Smart Thermostat",
     version := "1",
     friendlyName := "エアコン",
     friendlyDescription := "自宅のエアコンのリモコン制御が可能",
     isReachable := true,
     actions := [
       "setTargetTemperature",
       "incrementTargetTemperature",
       "decrementTargetTemperature",
       "getTargetTemperature",
       "getTemperatureReading"],
     additionalApplianceDetails := .obj [] }]

/-- The ThermostatController capability dict from
`get_capabilities_from_v2_appliance`'s "Smart Thermostat" branch. -/
def thermostat_controller_capability : Json :=
  .obj [
    ("type", .str "AlexaInterface"),
    ("interface", .str "Alexa.ThermostatController"),
    ("version", .str "3"),
    ("properties", .obj [
      ("supported", .arr [
        .obj [("name", .str "targetSetpoint")],
        .obj [("name", .str "thermostatMode")]]),
      ("proactivelyReported", .bool true),
      ("retrievable", .bool true)]),
    ("configuration", .obj [
      ("supportedModes", .arr [.str "HEAT", .str "COOL"]),
      ("supportsScheduling", .bool false)])]

/-- The PowerController capability dict (identical in both branches of
`get_capabilities_from_v2_appliance`). -/
def power_controller_capability : Json :=
  .obj [
    ("type", .str "AlexaInterface"),
    ("interface", .str "Alexa.PowerController"),
    ("version", .str "3"),
    ("properties", .obj [
      ("supported", .arr [.obj [("name", .str "powerState")]]),
      ("proactivelyReported", .bool true),
      ("retrievable", .bool true)])]

/-- The TemperatureSensor capability dict from the "Smart Thermostat"
branch. -/
def temperature_sensor_capability : Json :=
  .obj [
    ("type", .str "AlexaInterface"),
    ("interface", .str "Alexa.TemperatureSensor"),
    ("version", .str "3"),
    ("properties", .obj [
      ("supported", .arr [.obj [("name", .str "temperature")]]),
      ("proactivelyReported", .bool true),
      ("retrievable", .bool true)])]

/-- `endpoint_health_capability`: appended to every endpoint's
capability list. -/
def endpoint_health_capability : Json :=
  .obj [
    ("type", .str "AlexaInterface"),
    ("interface", .str "Alexa.EndpointHealth"),
    ("version", .str "3"),
    ("properties", .obj [
      ("supported", .arr [.obj [("name", .str "connectivity")]]),
      ("proactivelyReported", .bool true),
      ("retrievable", .bool true)])]

/-- `alexa_interface_capability`: the base "Alexa" descriptor appended
last to every endpoint's capability list. -/
def alexa_interface_capability : Json :=
  .obj [
    ("type", .str "AlexaInterface"),
    ("interface", .str "Alexa"),
    ("version", .str "3")]

/-- `get_display_categories_from_v2_appliance` (lambda.py:406-410). -/
def get_display_categories_from_v2_appliance (appliance : Appliance) : List String :=
  if appliance.modelName == "Smart Thermostat" then ["THERMOSTAT"] else ["OTHER"]

/-- `get_capabilities_from_v2_appliance` (lambda.py:412-495): the
model-specific descriptors, then `endpoint_health_capability` and
`alexa_interface_capability` appended in that order. -/
def get_capabilities_from_v2_appliance (appliance : Appliance) : List Json :=
  (if appliance.modelName == "Smart Thermostat" then
    [thermostat_controller_capability,
     power_controller_capability,
     temperature_sensor_capability]
  else
    [power_controller_capability])
  ++ [endpoint_health_capability, alexa_interface_capability]

/-- `get_endpoint_from_v2_appliance` (lambda.py:377-389). -/
def get_endpoint_from_v2_appliance (appliance : Appliance) : Json :=
  .obj [
    ("endpointId", .str appliance.applianceId),
    ("manufacturerName", .str appliance.manufacturerName),
    ("friendlyName", .str appliance.friendlyName),
    ("description", .str appliance.friendlyDescription),
    ("displayCategories",
      .arr ((get_display_categories_from_v2_appliance appliance).map Json.str)),
    ("cookie", appliance.additionalApplianceDetails),
    ("capabilities", .arr (get_capabilities_from_v2_appliance appliance))]

/-- `get_directive_version` (lambda.py:391-398): try
`request["directive"]["header"]["payloadVersion"]`, on any exception try
`request["header"]["payloadVersion"]`, on any exception return `"-1"`.
Total by construction — every input shape reaches one of the three
returns. -/
def get_directive_version (request : Json) : Json :=
  match request.getPath ["directive", "header", "payloadVersion"] with
  | some v => v
  | none =>
    match request.getPath ["header", "payloadVersion"] with
    | some v => v
    | none => .str "-1"

/-- One entry of a v3 `context.properties` list: the dict shape shared
by every property in the source's response literals. `ts` is the
`get_utc_timestamp()` value sampled at synthesis time. -/
def property_state (ns name : String) (value : Json) (ts : String) : Json :=
  .obj [
    ("namespace", .str ns),
    ("name", .str name),
    ("value", value),
    ("timeOfSample", .str ts),
    ("uncertaintyInMilliseconds", .num 0)]

/-- `handle_discovery` (lambda.py:107-121). -/
def handle_discovery (ext : ExtInputs) : Json :=
  .obj [
    ("header", .obj [
      ("namespace", .str "Alexa.ConnectedHome.Discovery"),
      ("name", .str "DiscoverAppliancesResponse"),
      ("payloadVersion", .str "2"),
      ("messageId", .str ext.msgId)]),
    ("payload", .obj [
      ("discoveredAppliances", .arr (SAMPLE_APPLIANCES.map appliance_to_json))])]

/-- `handle_non_discovery` (lambda.py:123-147): only `TurnOnRequest` and
`TurnOffRequest` bind `header`; any other name leaves `header` unbound so
the trailing `response` construction raises `NameError`. -/
def handle_non_discovery (request : Json) (ext : ExtInputs) : Except String Json :=
  match request.getPath ["header", "name"] with
  | some request_name =>
    if request_name.isStr "TurnOnRequest" then
      .ok (.obj [
        ("header", .obj [
          ("namespace", .str "Alexa.ConnectedHome.Control"),
          ("name", .str "TurnOnConfirmation"),
          ("payloadVersion", .str "2"),
          ("messageId", .str ext.msgId)]),
        ("payload", .obj [])])
    else if request_name.isStr "TurnOffRequest" then
      .ok (.obj [
        ("header", .obj [
          ("namespace", .str "Alexa.ConnectedHome.Control"),
          ("name", .str "TurnOffConfirmation"),
          ("payloadVersion", .str "2"),
          ("messageId", .str ext.msgId)]),
        ("payload", .obj [])])
    else .error "NameError"
  | none => .error "KeyError"

/-- `handle_discovery_v3` (lambda.py:163-181). -/
def handle_discovery_v3 (ext : ExtInputs) : Json :=
  .obj [
    ("event", .obj [
      ("header", .obj [
        ("namespace", .str "Alexa.Discovery"),
        ("name", .str "Discover.Response"),
        ("payloadVersion", .str "3"),
        ("messageId", .str ext.msgId)]),
      ("payload", .obj [
        ("endpoints", .arr (SAMPLE_APPLIANCES.map get_endpoint_from_v2_appliance))])])]

/-- The `Alexa.PowerController` response literal (lambda.py:195-224):
one `powerState` property in the context, the inbound correlationToken
copied into the event header. -/
def power_controller_response (value : String) (corr eid : Json) (ext : ExtInputs) : Json :=
  .obj [
    ("context", .obj [
      ("properties", .arr [
        property_state "Alexa.PowerController" "powerState" (.str value) ext.ts])]),
    ("event", .obj [
      ("header", .obj [
        ("namespace", .str "Alexa"),
        ("name", .str "Response"),
        ("payloadVersion", .str "3"),
        ("messageId", .str ext.msgId),
        ("correlationToken", corr)]),
      ("endpoint", .obj [
        ("scope", .obj [
          ("type", .str "BearerToken"),
          ("token", .str "access-token-from-Amazon")]),
        ("endpointId", eid)]),
      ("payload", .obj [])])]

/-- The three-property context list of the ThermostatController
response (lambda.py:258-288): thermostatMode, targetSetpoint (both read
back from the device), sensor temperature — in that order. -/
def thermostat_snapshot (ac : AcRemote) (ext : ExtInputs) : List Json :=
  [property_state "Alexa.ThermostatController" "thermostatMode"
    (.str ac.get_mode) ext.ts,
   property_state "Alexa.ThermostatController" "targetSetpoint"
    (.obj [("value", .num ac.get_temperature), ("scale", .str "CELSIUS")]) ext.ts,
   property_state "Alexa.TemperatureSensor" "temperature"
    (.obj [("value", .num ext.envTemp), ("scale", .str "CELSIUS")]) ext.ts]

/-- The `Alexa.ThermostatController` response literal
(lambda.py:244-289): a full state snapshot of three properties. -/
def thermostat_response (corr eid : Json) (ac : AcRemote) (ext : ExtInputs) : Json :=
  .obj [
    ("event", .obj [
      ("header", .obj [
        ("namespace", .str "Alexa"),
        ("name", .str "Response"),
        ("messageId", .str ext.msgId),
        ("correlationToken", corr),
        ("payloadVersion", .str "3")]),
      ("endpoint", .obj [("endpointId", eid)]),
      ("payload", .obj [])]),
    ("context", .obj [
      ("properties", .arr (thermostat_snapshot ac ext))])]

/-- The five-property context list of the StateReport
(lambda.py:308-354): thermostatMode, targetSetpoint, powerState,
temperature, connectivity — in that order. -/
def report_state_snapshot (ac : AcRemote) (ext : ExtInputs) : List Json :=
  [property_state "Alexa.ThermostatController" "thermostatMode"
    (.str ac.get_mode) ext.ts,
   property_state "Alexa.ThermostatController" "targetSetpoint"
    (.obj [("value", .num ac.get_temperature), ("scale", .str "CELSIUS")]) ext.ts,
   property_state "Alexa.PowerController" "powerState"
    (.str ac.get_power) ext.ts,
   property_state "Alexa.TemperatureSensor" "temperature"
    (.obj [("value", .num ext.envTemp), ("scale", .str "CELSIUS")]) ext.ts,
   property_state "Alexa.EndpointHealth" "connectivity"
    (.obj [("value", .str "OK")]) ext.ts]

/-- The `Alexa/ReportState` StateReport literal (lambda.py:294-355). -/
def report_state_response (corr eid : Json) (ac : AcRemote) (ext : ExtInputs) : Json :=
  .obj [
    ("event", .obj [
      ("header", .obj [
        ("namespace", .str "Alexa"),
        ("name", .str "StateReport"),
        ("messageId", .str ext.msgId),
        ("correlationToken", corr),
        ("payloadVersion", .str "3")]),
      ("endpoint", .obj [("endpointId", eid)]),
      ("payload", .obj [])]),
    ("context", .obj [
      ("properties", .arr (report_state_snapshot ac ext))])]

/-- The `Alexa.Authorization/AcceptGrant` response literal
(lambda.py:361-371): event only, no context. -/
def accept_grant_response (ext : ExtInputs) : Json :=
  .obj [
    ("event", .obj [
      ("header", .obj [
        ("namespace", .str "Alexa.Authorization"),
        ("name", .str "AcceptGrant.Response"),
        ("payloadVersion", .str "3"),
        ("messageId", .str ext.msgId)]),
      ("payload", .obj [])])]

/-- `handle_non_discovery_v3` (lambda.py:183-374).  Returns the Python
result — `.ok (some resp)` for a `return response`, `.ok none` for the
implicit `return None` fallthrough, `.error` for a raised exception —
paired with the device state after the call (mutations performed before
an exception persist, since `ac_remote` is a module-level singleton). -/
def handle_non_discovery_v3 (request : Json) (ac : AcRemote) (ext : ExtInputs) :
    Except String (Option Json) × AcRemote :=
  match request.getPath ["directive", "header", "namespace"],
        request.getPath ["directive", "header", "name"] with
  | some request_namespace, some request_name =>
    if request_namespace.isStr "Alexa.PowerController" then
      let va :=
        if request_name.isStr "TurnOn" then ("ON", ac.set_power_on)
        else ("OFF", ac.set_power_off)
      match request.getPath ["directive", "header", "correlationToken"],
            request.getPath ["directive", "endpoint", "endpointId"] with
      | some corr, some eid =>
        (.ok (some (power_controller_response va.1 corr eid ext)), va.2)
      | _, _ => (.error "KeyError", va.2)
    else if request_namespace.isStr "Alexa.ThermostatController" then
      let step : Except String AcRemote :=
        if request_name.isStr "SetTargetTemperature" then
          match request.getPath ["directive", "payload", "targetSetpoint", "value"] with
          | some (.num t) => .ok (ac.set_temperature t)
          | some _ => .error "TypeError"
          | none => .error "KeyError"
        else if request_name.isStr "AdjustTargetTemperature" then
          match request.getPath ["directive", "payload", "targetSetpointDelta", "value"] with
          | some (.num d) => .ok (ac.set_temperature (ac.get_temperature + d))
          | some _ => .error "TypeError"
          | none => .error "KeyError"
        else if request_name.isStr "SetThermostatMode" then
          match request.getPath ["directive", "payload", "thermostatMode", "value"] with
          | some m =>
            if m.isStr "HEAT" then .ok ac.set_mode_heat
            else if m.isStr "COOL" then .ok ac.set_mode_cool
            else .ok ac
          | none => .error "KeyError"
        else .ok ac
      match step with
      | .error e => (.error e, ac)
      | .ok ac' =>
        match request.getPath ["directive", "header", "correlationToken"],
              request.getPath ["directive", "endpoint", "endpointId"] with
        | some corr, some eid =>
          (.ok (some (thermostat_response corr eid ac' ext)), ac')
        | _, _ => (.error "KeyError", ac')
    else if request_namespace.isStr "Alexa" then
      if request_name.isStr "ReportState" then
        match request.getPath ["directive", "header", "correlationToken"],
              request.getPath ["directive", "endpoint", "endpointId"] with
        | some corr, some eid =>
          (.ok (some (report_state_response corr eid ac ext)), ac)
        | _, _ => (.error "KeyError", ac)
      else (.ok none, ac)
    else if request_namespace.isStr "Alexa.Authorization" then
      if request_name.isStr "AcceptGrant" then
        match request.getPath ["directive", "payload", "grant", "code"] with
        | some (.str _) => (.ok (some (accept_grant_response ext)), ac)
        | some _ => (.error "TypeError", ac)
        | none => (.error "KeyError", ac)
      else (.ok none, ac)
    else (.ok none, ac)
  | _, _ => (.error "KeyError", ac)

inductive RoutePath where
  | v3 : RoutePath
  | v2 : RoutePath
deriving DecidableEq

/-- The top-level branch of `lambda_handler` (lambda.py:78-92): the
detected payload version routes the request either into the v3 handlers
or into the v2 handlers. -/
def dispatch_path (request : Json) : RoutePath :=
  if (get_directive_version request).isStr "3" then .v3 else .v2

/-- `lambda_handler` (lambda.py:66-104): detect the version, route to a
discovery or non-discovery handler of the matching generation. -/
def lambda_handler (request : Json) (ac : AcRemote) (ext : ExtInputs) :
    Except String (Option Json) × AcRemote :=
  match dispatch_path request with
  | .v3 =>
    match request.getPath ["directive", "header", "name"] with
    | some name =>
      if name.isStr "Discover" then (.ok (some (handle_discovery_v3 ext)), ac)
      else handle_non_discovery_v3 request ac ext
    | none => (.error "KeyError", ac)
  | .v2 =>
    match request.getPath ["header", "namespace"] with
    | some ns =>
      if ns.isStr "Alexa.ConnectedHome.Discovery" then
        (.ok (some (handle_discovery ext)), ac)
      else
        match handle_non_discovery request ext with
        | .ok resp => (.ok (some resp), ac)
        | .error e => (.error e, ac)
    | none => (.error "KeyError", ac)

/-- The request populates the v3 payloadVersion location
`directive.header.payloadVersion`. -/
def v3_shaped (request : Json) : Bool :=
  (request.getPath ["directive", "header", "payloadVersion"]).isSome

/-- The request populates the legacy (v2) payloadVersion location
`header.payloadVersion`. -/
def v2_shaped (request : Json) : Bool :=
  (request.getPath ["header", "payloadVersion"]).isSome

/-- A well-formed v3 control directive, used as a concrete instance of
the spec's §6 inbound v3 shape. -/
def mk_v3_request (ns nm corr eid : String) (payload : Json) : Json :=
  .obj [("directive", .obj [
    ("header", .obj [
      ("namespace", .str ns),
      ("name", .str nm),
      ("payloadVersion", .str "3"),
      ("messageId", .str "message-1"),
      ("correlationToken", .str corr)]),
    ("endpoint", .obj [("endpointId", .str eid)]),
    ("payload", payload)])]

/-- C4: every appliance with modelName "Smart Thermostat" projects to an
endpoint with exactly 5 capabilities, whose last two are the
EndpointHealth descriptor then the base "Alexa" descriptor, and whose
displayCategories is exactly ["THERMOSTAT"]. -/
theorem smart_thermostat_projection (a : Appliance)
    (h : a.modelName = "Smart Thermostat") :
    (get_capabilities_from_v2_appliance a).length = 5 ∧
    (get_capabilities_from_v2_appliance a).drop 3 =
      [endpoint_health_capability, alexa_interface_capability] ∧
    get_display_categories_from_v2_appliance a = ["THERMOSTAT"] ∧
    (get_endpoint_from_v2_appliance a).get "capabilities" =
      some (.arr (get_capabilities_from_v2_appliance a)) ∧
    (get_endpoint_from_v2_appliance a).get "displayCategories" =
      some (.arr [.str "THERMOSTAT"]) := by
  simp [get_capabilities_from_v2_appliance, get_display_categories_from_v2_appliance,
        get_endpoint_from_v2_appliance, Json.get, List.lookup, h]

theorem smart_thermostat_projection_witness :
    (get_capabilities_from_v2_appliance
      { applianceId := "endpoint-004", manufacturerName := "IR TEST (AC remote)",
        modelName := "Smart Thermostat", version := "1", friendlyName := "エアコン",
        friendlyDescription := "自宅のエアコンのリモコン制御が可能", isReachable := true,
        actions := ["setTargetTemperature"], additionalApplianceDetails := .obj [] }).length
      = 5 :=
  (smart_thermostat_projection _ rfl).1

/-- C5: every appliance whose modelName is not "Smart Thermostat"
projects to exactly 3 capabilities — PowerController, then the
EndpointHealth descriptor, then the base "Alexa" descriptor — and its
displayCategories is exactly ["OTHER"]. -/
theorem other_model_projection (a : Appliance)
    (h : a.modelName ≠ "Smart Thermostat") :
    get_capabilities_from_v2_appliance a =
      [power_controller_capability, endpoint_health_capability, alexa_interface_capability] ∧
    (get_capabilities_from_v2_appliance a).length = 3 ∧
    get_display_categories_from_v2_appliance a = ["OTHER"] ∧
    (get_endpoint_from_v2_appliance a).get "capabilities" =
      some (.arr (get_capabilities_from_v2_appliance a)) ∧
    (get_endpoint_from_v2_appliance a).get "displayCategories" =
      some (.arr [.str "OTHER"]) := by
  simp [get_capabilities_from_v2_appliance, get_display_categories_from_v2_appliance,
        get_endpoint_from_v2_appliance, Json.get, List.lookup, h]

theorem other_model_projection_witness :
    get_capabilities_from_v2_appliance
      { applianceId := "endpoint-001", manufacturerName := "Sample Manufacturer",
        modelName := "Smart Plug", version := "1", friendlyName := "Plug",
        friendlyDescription := "A plug", isReachable := true,
        actions := ["turnOn"], additionalApplianceDetails := .obj [] }
      = [power_controller_capability, endpoint_health_capability, alexa_interface_capability] :=
  (other_model_projection _ (by simp)).1

/-- C2 counterexample: on a request with neither payloadVersion
location populated, version detection returns the sentinel "-1", not
the sentinel "unknown" the claim states. -/
theorem version_sentinel_counterexample :
    get_directive_version (.obj []) = .str "-1" ∧
    get_directive_version (.obj []) ≠ .str "unknown" := by
  refine ⟨rfl, ?_⟩
  intro h
  simp [get_directive_version, Json.getPath, Json.get] at h

/-- C2 (amended): version detection returns the value at
`directive.header.payloadVersion` if that field exists, else the value
at the top-level `header.payloadVersion` if that exists, else the
sentinel "-1"; it is total, so it never raises for any input shape. -/
theorem get_directive_version_spec (request : Json) :
    (∀ v, request.getPath ["directive", "header", "payloadVersion"] = some v →
      get_directive_version request = v) ∧
    (request.getPath ["directive", "header", "payloadVersion"] = none →
      ∀ v, request.getPath ["header", "payloadVersion"] = some v →
        get_directive_version request = v) ∧
    (request.getPath ["directive", "header", "payloadVersion"] = none →
      request.getPath ["header", "payloadVersion"] = none →
      get_directive_version request = .str "-1") := by
  refine ⟨fun v hv => ?_, fun h1 v hv => ?_, fun h1 h2 => ?_⟩ <;>
    simp [get_directive_version, *]

theorem get_directive_version_spec_witness :
    get_directive_version
      (.obj [("directive", .obj [("header", .obj [("payloadVersion", .str "3")])])])
      = .str "3" :=
  (get_directive_version_spec _).1 _ rfl

/-- C3 counterexample: a legacy-shaped request whose only populated
payloadVersion location is the top-level one, holding "3", is routed
into the v3 handling path — a v2-shaped directive misrouted. -/
theorem shape_misroute_counterexample :
    v2_shaped (.obj [("header", .obj [("payloadVersion", .str "3")])]) = true ∧
    v3_shaped (.obj [("header", .obj [("payloadVersion", .str "3")])]) = false ∧
    dispatch_path (.obj [("header", .obj [("payloadVersion", .str "3")])]) = .v3 :=
  ⟨rfl, rfl, rfl⟩

/-- C3 (amended): when exactly one payloadVersion location is populated
and it holds its expected value — "3" in the directive location, a
non-"3" value (such as "2") in the legacy top-level location — the
detected version routes a v3-shaped directive into the v3 path and a
v2-shaped directive into the v2 path, never the other way. -/
theorem dispatch_path_matches_shape (request : Json) :
    (request.getPath ["directive", "header", "payloadVersion"] = some (.str "3") →
      dispatch_path request = .v3) ∧
    (v3_shaped request = false → v2_shaped request = true →
      request.getPath ["header", "payloadVersion"] ≠ some (.str "3") →
      dispatch_path request = .v2) := by
  constructor
  · intro h
    simp [dispatch_path, get_directive_version, h, Json.isStr]
  · intro h3 h2 hne
    cases hd : request.getPath ["directive", "header", "payloadVersion"] with
    | some v => rw [v3_shaped, hd] at h3; simp at h3
    | none =>
      cases hh : request.getPath ["header", "payloadVersion"] with
      | none => rw [v2_shaped, hh] at h2; simp at h2
      | some v =>
        have hvne : v ≠ .str "3" := fun hc => hne (hc ▸ hh)
        simp [dispatch_path, get_directive_version, hd, hh, Json.isStr_false_of_ne hvne]

theorem dispatch_path_matches_shape_witness :
    dispatch_path (.obj [("header", .obj [("payloadVersion", .str "2")])]) = .v2 := by
  refine (dispatch_path_matches_shape _).2 rfl rfl ?_
  intro h
  simp [Json.getPath, Json.get] at h

/-- C1 failing input: a well-formed v3 directive whose
(namespace, name) pair — Alexa.SceneController/Activate — is absent
from both dispatch tables. -/
def unsupported_request : Json :=
  mk_v3_request "Alexa.SceneController" "Activate" "tok-9" "endpoint-004" (.obj [])

/-- C1 (code_bug): on a well-formed v3 directive with an unmatched
(namespace, name) pair the source's `handle_non_discovery_v3` falls
through every branch and silently returns Python `None` — no
"unsupported directive" error result is produced, contradicting the
spec's stated requirement (its §9 flags this as a latent bug). -/
theorem unsupported_directive_silent_none :
    handle_non_discovery_v3 unsupported_request
      { power := "OFF", mode := "COOL", temperature := 25 }
      { ts := "2024-01-01T00:00:00.00Z", msgId := "uuid-1", envTemp := 20 } =
      (.ok none, { power := "OFF", mode := "COOL", temperature := 25 }) ∧
    lambda_handler unsupported_request
      { power := "OFF", mode := "COOL", temperature := 25 }
      { ts := "2024-01-01T00:00:00.00Z", msgId := "uuid-1", envTemp := 20 } =
      (.ok none, { power := "OFF", mode := "COOL", temperature := 25 }) :=
  ⟨rfl, rfl⟩

/-- C8: a v3 `Alexa.PowerController/TurnOn` directive carrying a
correlationToken yields a response whose event.header.correlationToken
is the inbound token verbatim and whose context.properties is exactly
one entry: namespace Alexa.PowerController, name powerState, value
"ON"; the device is switched on. -/
theorem turn_on_response (request : Json) (ac : AcRemote) (ext : ExtInputs) (c e : String)
    (hns : request.getPath ["directive", "header", "namespace"] =
      some (.str "Alexa.PowerController"))
    (hnm : request.getPath ["directive", "header", "name"] = some (.str "TurnOn"))
    (hcorr : request.getPath ["directive", "header", "correlationToken"] = some (.str c))
    (heid : request.getPath ["directive", "endpoint", "endpointId"] = some (.str e)) :
    handle_non_discovery_v3 request ac ext =
      (.ok (some (power_controller_response "ON" (.str c) (.str e) ext)), ac.set_power_on) ∧
    (power_controller_response "ON" (.str c) (.str e) ext).getPath
      ["event", "header", "correlationToken"] = some (.str c) ∧
    (power_controller_response "ON" (.str c) (.str e) ext).getPath
      ["context", "properties"] =
      some (.arr [property_state "Alexa.PowerController" "powerState" (.str "ON") ext.ts]) ∧
    (property_state "Alexa.PowerController" "powerState" (.str "ON") ext.ts).get "namespace" =
      some (.str "Alexa.PowerController") ∧
    (property_state "Alexa.PowerController" "powerState" (.str "ON") ext.ts).get "name" =
      some (.str "powerState") ∧
    (property_state "Alexa.PowerController" "powerState" (.str "ON") ext.ts).get "value" =
      some (.str "ON") := by
  refine ⟨?_, rfl, rfl, rfl, rfl, rfl⟩
  simp [handle_non_discovery_v3, hns, hnm, hcorr, heid, Json.isStr]

theorem turn_on_response_witness :
    handle_non_discovery_v3
      (mk_v3_request "Alexa.PowerController" "TurnOn" "tok-1" "endpoint-004" (.obj []))
      { power := "OFF", mode := "COOL", temperature := 25 }
      { ts := "t0", msgId := "u0", envTemp := 20 } =
      (.ok (some (power_controller_response "ON" (.str "tok-1") (.str "endpoint-004")
        { ts := "t0", msgId := "u0", envTemp := 20 })),
       { power := "ON", mode := "COOL", temperature := 25 }) :=
  (turn_on_response
    (mk_v3_request "Alexa.PowerController" "TurnOn" "tok-1" "endpoint-004" (.obj []))
    { power := "OFF", mode := "COOL", temperature := 25 }
    { ts := "t0", msgId := "u0", envTemp := 20 }
    "tok-1" "endpoint-004" rfl rfl rfl rfl).1

/-- C10: a v3 `Alexa.PowerController` directive with any name other
than "TurnOn" — dispatch-table names and unknown names alike — switches
the device off and yields a response reporting powerState "OFF",
instead of an unsupported-directive result. -/
theorem power_controller_other_name_turns_off (request : Json) (ac : AcRemote)
    (ext : ExtInputs) (nm : Json) (c e : String)
    (hns : request.getPath ["directive", "header", "namespace"] =
      some (.str "Alexa.PowerController"))
    (hnm : request.getPath ["directive", "header", "name"] = some nm)
    (hne : nm ≠ .str "TurnOn")
    (hcorr : request.getPath ["directive", "header", "correlationToken"] = some (.str c))
    (heid : request.getPath ["directive", "endpoint", "endpointId"] = some (.str e)) :
    handle_non_discovery_v3 request ac ext =
      (.ok (some (power_controller_response "OFF" (.str c) (.str e) ext)), ac.set_power_off) ∧
    (power_controller_response "OFF" (.str c) (.str e) ext).getPath
      ["context", "properties"] =
      some (.arr [property_state "Alexa.PowerController" "powerState" (.str "OFF") ext.ts]) ∧
    (property_state "Alexa.PowerController" "powerState" (.str "OFF") ext.ts).get "value" =
      some (.str "OFF") := by
  refine ⟨?_, rfl, rfl⟩
  simp only [handle_non_discovery_v3, hns, hnm, hcorr, heid, Json.isStr_false_of_ne hne]
  simp [Json.isStr]

theorem power_controller_other_name_turns_off_witness :
    handle_non_discovery_v3
      (mk_v3_request "Alexa.PowerController" "Toggle" "tok-3" "endpoint-004" (.obj []))
      { power := "ON", mode := "COOL", temperature := 25 }
      { ts := "t0", msgId := "u0", envTemp := 20 } =
      (.ok (some (power_controller_response "OFF" (.str "tok-3") (.str "endpoint-004")
        { ts := "t0", msgId := "u0", envTemp := 20 })),
       { power := "OFF", mode := "COOL", temperature := 25 }) :=
  (power_controller_other_name_turns_off
    (mk_v3_request "Alexa.PowerController" "Toggle" "tok-3" "endpoint-004" (.obj []))
    { power := "ON", mode := "COOL", temperature := 25 }
    { ts := "t0", msgId := "u0", envTemp := 20 }
    (.str "Toggle") "tok-3" "endpoint-004" rfl rfl (by simp) rfl rfl).1

/-- C7: a v3 `Alexa/ReportState` directive performs no device mutation
— the facade state after handling equals the state before — and its
StateReport's context.properties is exactly the five properties
thermostatMode, targetSetpoint, powerState, temperature, connectivity,
in that order. -/
theorem report_state_pure_read (request : Json) (ac : AcRemote) (ext : ExtInputs)
    (c e : String)
    (hns : request.getPath ["directive", "header", "namespace"] = some (.str "Alexa"))
    (hnm : request.getPath ["directive", "header", "name"] = some (.str "ReportState"))
    (hcorr : request.getPath ["directive", "header", "correlationToken"] = some (.str c))
    (heid : request.getPath ["directive", "endpoint", "endpointId"] = some (.str e)) :
    handle_non_discovery_v3 request ac ext =
      (.ok (some (report_state_response (.str c) (.str e) ac ext)), ac) ∧
    (report_state_response (.str c) (.str e) ac ext).getPath ["context", "properties"] =
      some (.arr (report_state_snapshot ac ext)) ∧
    (report_state_snapshot ac ext).length = 5 ∧
    (report_state_snapshot ac ext).map (fun p => p.get "name") =
      [some (.str "thermostatMode"), some (.str "targetSetpoint"),
       some (.str "powerState"), some (.str "temperature"),
       some (.str "connectivity")] := by
  refine ⟨?_, rfl, rfl, rfl⟩
  simp [handle_non_discovery_v3, hns, hnm, hcorr, heid, Json.isStr]

theorem report_state_pure_read_witness :
    handle_non_discovery_v3
      (mk_v3_request "Alexa" "ReportState" "tok-4" "endpoint-004" (.obj []))
      { power := "ON", mode := "HEAT", temperature := 23 }
      { ts := "t0", msgId := "u0", envTemp := 21 } =
      (.ok (some (report_state_response (.str "tok-4") (.str "endpoint-004")
        { power := "ON", mode := "HEAT", temperature := 23 }
        { ts := "t0", msgId := "u0", envTemp := 21 })),
       { power := "ON", mode := "HEAT", temperature := 23 }) :=
  (report_state_pure_read
    (mk_v3_request "Alexa" "ReportState" "tok-4" "endpoint-004" (.obj []))
    { power := "ON", mode := "HEAT", temperature := 23 }
    { ts := "t0", msgId := "u0", envTemp := 21 }
    "tok-4" "endpoint-004" rfl rfl rfl rfl).1

/-- C6: every v3 `Alexa.ThermostatController` directive named
SetTargetTemperature, AdjustTargetTemperature or SetThermostatMode
yields a response whose context.properties is exactly the three-entry
full state snapshot — thermostatMode, targetSetpoint, temperature, in
that order — computed from the device state after the mutation, not a
diff of the action-specific value. -/
theorem thermostat_actions_full_snapshot (request : Json) (ac : AcRemote)
    (ext : ExtInputs) (c e : String)
    (hns : request.getPath ["directive", "header", "namespace"] =
      some (.str "Alexa.ThermostatController"))
    (hcorr : request.getPath ["directive", "header", "correlationToken"] = some (.str c))
    (heid : request.getPath ["directive", "endpoint", "endpointId"] = some (.str e))
    (hact :
      (request.getPath ["directive", "header", "name"] =
          some (.str "SetTargetTemperature") ∧
        ∃ t : Rat, request.getPath ["directive", "payload", "targetSetpoint", "value"] =
          some (.num t)) ∨
      (request.getPath ["directive", "header", "name"] =
          some (.str "AdjustTargetTemperature") ∧
        ∃ d : Rat, request.getPath
          ["directive", "payload", "targetSetpointDelta", "value"] = some (.num d)) ∨
      (request.getPath ["directive", "header", "name"] =
          some (.str "SetThermostatMode") ∧
        ∃ m, request.getPath ["directive", "payload", "thermostatMode", "value"] =
          some m)) :
    ∃ ac',
      handle_non_discovery_v3 request ac ext =
        (.ok (some (thermostat_response (.str c) (.str e) ac' ext)), ac') ∧
      (thermostat_response (.str c) (.str e) ac' ext).getPath ["context", "properties"] =
        some (.arr (thermostat_snapshot ac' ext)) ∧
      (thermostat_snapshot ac' ext).length = 3 ∧
      (thermostat_snapshot ac' ext).map (fun p => p.get "name") =
        [some (.str "thermostatMode"), some (.str "targetSetpoint"),
         some (.str "temperature")] := by
  rcases hact with ⟨hnm, t, hv⟩ | ⟨hnm, d, hv⟩ | ⟨hnm, m, hv⟩
  · exact ⟨ac.set_temperature t,
      by simp [handle_non_discovery_v3, hns, hnm, hv, hcorr, heid, Json.isStr],
      rfl, rfl, rfl⟩
  · exact ⟨ac.set_temperature (ac.get_temperature + d),
      by simp [handle_non_discovery_v3, hns, hnm, hv, hcorr, heid, Json.isStr],
      rfl, rfl, rfl⟩
  · by_cases hH : m.isStr "HEAT"
    · refine ⟨ac.set_mode_heat, ?_, rfl, rfl, rfl⟩
      simp only [handle_non_discovery_v3, hns, hnm, hv, hH, hcorr, heid]
      simp [Json.isStr]
    · rw [Bool.not_eq_true] at hH
      by_cases hC : m.isStr "COOL"
      · refine ⟨ac.set_mode_cool, ?_, rfl, rfl, rfl⟩
        simp only [handle_non_discovery_v3, hns, hnm, hv, hH, hC, hcorr, heid]
        simp [Json.isStr]
      · rw [Bool.not_eq_true] at hC
        refine ⟨ac, ?_, rfl, rfl, rfl⟩
        simp only [handle_non_discovery_v3, hns, hnm, hv, hH, hC, hcorr, heid]
        simp [Json.isStr]

theorem thermostat_actions_full_snapshot_witness :
    ∃ ac',
      handle_non_discovery_v3
        (mk_v3_request "Alexa.ThermostatController" "SetTargetTemperature" "tok-5"
          "endpoint-004" (.obj [("targetSetpoint", .obj [("value", .num 22)])]))
        { power := "ON", mode := "COOL", temperature := 25 }
        { ts := "t0", msgId := "u0", envTemp := 20 } =
        (.ok (some (thermostat_response (.str "tok-5") (.str "endpoint-004") ac'
          { ts := "t0", msgId := "u0", envTemp := 20 })), ac') ∧
      (thermostat_response (.str "tok-5") (.str "endpoint-004") ac'
          { ts := "t0", msgId := "u0", envTemp := 20 }).getPath
          ["context", "properties"] =
        some (.arr (thermostat_snapshot ac' { ts := "t0", msgId := "u0", envTemp := 20 })) ∧
      (thermostat_snapshot ac' { ts := "t0", msgId := "u0", envTemp := 20 }).length = 3 ∧
      (thermostat_snapshot ac' { ts := "t0", msgId := "u0", envTemp := 20 }).map
          (fun p => p.get "name") =
        [some (.str "thermostatMode"), some (.str "targetSetpoint"),
         some (.str "temperature")] :=
  thermostat_actions_full_snapshot
    (mk_v3_request "Alexa.ThermostatController" "SetTargetTemperature" "tok-5"
      "endpoint-004" (.obj [("targetSetpoint", .obj [("value", .num 22)])]))
    { power := "ON", mode := "COOL", temperature := 25 }
    { ts := "t0", msgId := "u0", envTemp := 20 }
    "tok-5" "endpoint-004" rfl rfl rfl (Or.inl ⟨rfl, 22, rfl⟩)

/-- C9: a v3 `Alexa.ThermostatController/SetThermostatMode` directive
whose payload thermostatMode value is neither "HEAT" nor "COOL" leaves
the device facade's state — in particular its mode — completely
unchanged: no mode mutation is performed. -/
theorem set_mode_other_value_noop (request : Json) (ac : AcRemote) (ext : ExtInputs)
    (m : Json)
    (hns : request.getPath ["directive", "header", "namespace"] =
      some (.str "Alexa.ThermostatController"))
    (hnm : request.getPath ["directive", "header", "name"] =
      some (.str "SetThermostatMode"))
    (hm : request.getPath ["directive", "payload", "thermostatMode", "value"] = some m)
    (hH : m ≠ .str "HEAT") (hC : m ≠ .str "COOL") :
    (handle_non_discovery_v3 request ac ext).2 = ac ∧
    (handle_non_discovery_v3 request ac ext).2.mode = ac.mode := by
  have key : (handle_non_discovery_v3 request ac ext).2 = ac := by
    simp only [handle_non_discovery_v3, hns, hnm, hm,
      Json.isStr_false_of_ne hH, Json.isStr_false_of_ne hC]
    cases hcorr : request.getPath ["directive", "header", "correlationToken"] <;>
      cases heid : request.getPath ["directive", "endpoint", "endpointId"] <;>
        simp [Json.isStr]
  exact ⟨key, by rw [key]⟩

theorem set_mode_other_value_noop_witness :
    (handle_non_discovery_v3
      (mk_v3_request "Alexa.ThermostatController" "SetThermostatMode" "tok-6"
        "endpoint-004" (.obj [("thermostatMode", .obj [("value", .str "AUTO")])]))
      { power := "ON", mode := "COOL", temperature := 25 }
      { ts := "t0", msgId := "u0", envTemp := 20 }).2 =
      { power := "ON", mode := "COOL", temperature := 25 } :=
  (set_mode_other_value_noop
    (mk_v3_request "Alexa.ThermostatController" "SetThermostatMode" "tok-6"
      "endpoint-004" (.obj [("thermostatMode", .obj [("value", .str "AUTO")])]))
    { power := "ON", mode := "COOL", temperature := 25 }
    { ts := "t0", msgId := "u0", envTemp := 20 }
    (.str "AUTO") rfl rfl rfl (by simp) (by simp)).1
